import Mathlib

/-
Verification of the DEAPlotting module (three_band_image and
three_band_image_subplots) against its specification.

The Python module is embedded shallowly: the xarray dataset becomes an
explicit record of named band variables plus coordinate value lists;
numpy float32 pixels become an inductive type with a distinguished
not-a-number element over exact rationals; Python exceptions become an
Except monad with one constructor per exception class the code can meet;
the matplotlib side effects (figure allocation, axes state) become pure
result records threaded through an explicit figure-id counter.  The
skimage function exposure.equalize_hist is an external library routine
and is therefore kept abstract as a function parameter of the two entry
points.
-/

/-- Decidable equality for Except values, used to evaluate the model on
concrete inputs. -/
instance {ε α : Type} [DecidableEq ε] [DecidableEq α] : DecidableEq (Except ε α)
  | Except.ok a, Except.ok b =>
      if h : a = b then isTrue (by rw [h]) else isFalse (by intro hc; cases hc; exact h rfl)
  | Except.ok _, Except.error _ => isFalse (by intro hc; cases hc)
  | Except.error _, Except.ok _ => isFalse (by intro hc; cases hc)
  | Except.error e, Except.error f =>
      if h : e = f then isTrue (by rw [h]) else isFalse (by intro hc; cases hc; exact h rfl)

namespace DEAPlotting

/-- The Python exception classes reachable from this module. -/
inductive PyErr where
  | valueError : PyErr
  | indexError : PyErr
  | keyError : PyErr
  | attributeError : PyErr
  | zeroDivisionError : PyErr
deriving DecidableEq, Repr

/-- A float32 pixel of the composite: not-a-number, or a finite value
(modelled as an exact rational; every raw band value the code handles is
an integer reflectance, exactly representable). -/
inductive Px where
  | nan : Px
  | val : ℚ → Px
deriving DecidableEq, Repr

/-- A two-dimensional raster slice: rows (y) of columns (x) of raw band
values. -/
abbrev Grid := List (List ℚ)

/-- The stacked composite image: rows of columns of channel lists. -/
abbrev Img := List (List (List Px))

/-- A boolean mask with the layout of an Img (np.isfinite output). -/
abbrev MaskB := List (List (List Bool))

/-- A data variable of the dataset: a three-dimensional stack
(time, y, x) or a single two-dimensional slice (y, x). -/
inductive BandVar where
  | threeD : List Grid → BandVar
  | twoD : Grid → BandVar
deriving DecidableEq, Repr

/-- The shape tuple numpy reports for a band variable. -/
def BandVar.shape : BandVar → List Nat
  | .threeD slices =>
      [slices.length, (slices.headD []).length, ((slices.headD []).headD []).length]
  | .twoD g => [g.length, (g.headD []).length]

/-- The labelled dataset: named band variables, the optional time
coordinate (none models a dataset with no time axis, where attribute
access ds.time raises AttributeError), and the x and y coordinate
values used for tick labels. -/
structure Dataset where
  vars : List (String × BandVar)
  timeVals : Option (List String)
  xVals : List ℚ
  yVals : List ℚ
deriving DecidableEq, Repr

/-- ds[name]: dictionary-style band lookup; a missing name raises
KeyError. -/
def Dataset.getVar (ds : Dataset) (name : String) : Except PyErr BandVar :=
  match ds.vars.lookup name with
  | some bv => Except.ok bv
  | none => Except.error PyErr.keyError

/-- Python list indexing: out-of-range raises IndexError. -/
def pyIndex {α : Type} (xs : List α) (i : Nat) : Except PyErr α :=
  match xs.get? i with
  | some a => Except.ok a
  | none => Except.error PyErr.indexError

/-- ds.time.size: the length of the time coordinate; a dataset with no
time axis raises AttributeError. -/
def dsTimeSize (ds : Dataset) : Except PyErr Nat :=
  match ds.timeVals with
  | some ls => Except.ok ls.length
  | none => Except.error PyErr.attributeError

/-- str(ds.time[i].values): the time label at index i; AttributeError
when there is no time axis, IndexError when i is out of range. -/
def dsTimeAt (ds : Dataset) (i : Nat) : Except PyErr String :=
  match ds.timeVals with
  | none => Except.error PyErr.attributeError
  | some ls =>
      match ls.get? i with
      | some l => Except.ok l
      | none => Except.error PyErr.indexError

/-- Whether a slice has exactly shape (y, x), the condition for the
numpy assignment rawimg[:,:,i] = slice to succeed without broadcasting. -/
def gridShapeOk (y x : Nat) (g : Grid) : Bool :=
  g.length == y && g.all (fun row => row.length == x)

/-- ds[colour][time].values assigned into channel i of rawimg inside the
three-dimensional branch: a three-dimensional band is indexed along time
(IndexError when out of range, ValueError when the slice does not match
the (y, x) target); a two-dimensional band yields the row at the time
index, which numpy broadcasts across the y rows when its length is x. -/
def tryChannel3 (x y time : Nat) (bv : BandVar) : Except PyErr Grid :=
  match bv with
  | .threeD slices =>
      match slices.get? time with
      | some g => if gridShapeOk y x g then Except.ok g else Except.error PyErr.valueError
      | none => Except.error PyErr.indexError
  | .twoD g =>
      match g.get? time with
      | some row =>
          if row.length == x then Except.ok (List.replicate y row)
          else Except.error PyErr.valueError
      | none => Except.error PyErr.indexError

/-- ds[colour].values assigned into channel i of rawimg inside the
two-dimensional fallback branch: the whole slice must match (y, x); a
three-dimensional band cannot be assigned into a (y, x) target. -/
def fallbackChannel2 (x y : Nat) (bv : BandVar) : Except PyErr Grid :=
  match bv with
  | .twoD g => if gridShapeOk y x g then Except.ok g else Except.error PyErr.valueError
  | .threeD _ => Except.error PyErr.valueError

/-- The loop for i, colour in enumerate(bands): each band is looked up
and turned into one channel slice; writing channel i of a depth-3 image
for i at least 3 raises IndexError. -/
def channelsOf (ds : Dataset) (bands : List String)
    (f : BandVar → Except PyErr Grid) : Except PyErr (List Grid) :=
  bands.enum.mapM (fun p => do
    let g ← (ds.getVar p.2).bind f
    if p.1 < 3 then Except.ok g else Except.error PyErr.indexError)

/-- The band-extraction part of three_band_image: the try block unpacks
the first band shape into (t, y, x) and indexes every band at the time
argument; an exception of class ValueError anywhere in the block is
caught and the two-dimensional fallback reruns the extraction ignoring
the time argument; any other exception propagates. -/
def three_band_image_raw (ds : Dataset) (bands : List String) (time : Nat) :
    Except PyErr (Nat × Nat × List Grid) :=
  match (do
      let b0name ← pyIndex bands 0
      let b0 ← ds.getVar b0name
      match b0.shape with
      | [_t, y, x] => do
          let slices ← channelsOf ds bands (tryChannel3 x y time)
          Except.ok (y, x, slices)
      | _ => Except.error PyErr.valueError : Except PyErr (Nat × Nat × List Grid)) with
  | Except.ok r => Except.ok r
  | Except.error PyErr.valueError => do
      let b0name ← pyIndex bands 0
      let b0 ← ds.getVar b0name
      match b0.shape with
      | [y, x] => do
          let slices ← channelsOf ds bands (fallbackChannel2 x y)
          Except.ok (y, x, slices)
      | _ => Except.error PyErr.valueError
  | Except.error e => Except.error e

/-- Raw band value of a slice at row r, column c (0 outside the slice,
matching the np.zeros fill of unwritten cells). -/
def qAt (g : Grid) (r c : Nat) : ℚ :=
  (((g.get? r).getD []).get? c).getD 0

/-- rawimg after the channel-filling loop: a (y, x, 3) array whose
channel i holds slice i, and the np.zeros fill where no band was
assigned. -/
def mkRawimg (y x : Nat) (slices : List Grid) : Img :=
  (List.range y).map (fun r =>
    (List.range x).map (fun c =>
      (List.range 3).map (fun i =>
        match slices.get? i with
        | some g => Px.val (qAt g r c)
        | none => Px.val 0)))

/-- rawimg[rawimg == -999] = np.nan, applied to one pixel. -/
def maskSentinel (p : Px) : Px :=
  if p = Px.val (-999) then Px.nan else p

/-- rawimg[rawimg == -999] = np.nan, applied to the whole array. -/
def maskImg (img : Img) : Img :=
  img.map (List.map (List.map maskSentinel))

/-- The stacked RGB composite both entry points build before any
rescaling or enhancement: the channel stack with the sentinel replaced
by not-a-number. -/
def rawStack (y x : Nat) (slices : List Grid) : Img :=
  maskImg (mkRawimg y x slices)

/-- np.isfinite on one pixel. -/
def Px.isFinite : Px → Bool
  | .nan => false
  | .val _ => true

/-- np.isfinite(rawimg): the finite-pixel mask. -/
def finiteMask (img : Img) : MaskB :=
  img.map (List.map (List.map Px.isFinite))

/-- rawimg / 5000 on one pixel (not-a-number stays not-a-number). -/
def scalePx (p : Px) : Px :=
  match p with
  | .nan => Px.nan
  | .val q => Px.val (q / 5000)

/-- rawimg / 5000 on the whole array. -/
def scaleImg (img : Img) : Img :=
  img.map (List.map (List.map scalePx))

/-- The displayed array: exposure.equalize_hist with the finite mask
when contrast_enhance is true, else division by 5000.  The equalize
argument abstracts the external skimage routine. -/
def imgToShow (equalize : Img → MaskB → Img) (contrastEnhance : Bool)
    (raw : Img) : Img :=
  if contrastEnhance then equalize raw (finiteMask raw) else scaleImg raw

/-- Pixel accessor on the composite; out of range reads give the zero
fill. -/
def pxAt (img : Img) (r c i : Nat) : Px :=
  ((((((img.get? r).getD []).get? c).getD []).get? i)).getD (Px.val 0)

/-- Boolean shape check: img is a y-by-x array of depth-k channel
lists. -/
def isShape (img : Img) (y x k : Nat) : Bool :=
  img.length == y &&
    img.all (fun row => row.length == x && row.all (fun cell => cell.length == k))

/-- The axis labels both functions set from the projection argument:
Longitude and Latitude when projection equals geographic, otherwise
Eastings and Northings. -/
def axisLabelsFor (projection : String) : String × String :=
  if projection == "geographic" then ("Longitude", "Latitude")
  else ("Eastings", "Northings")

/-- The title three_band_image sets: the try block uses the time label
at the time index, and the bare except falls back to the caller-supplied
title on any exception. -/
def titleUsed (ds : Dataset) (time : Nat) (title : String) : String :=
  match dsTimeAt ds time with
  | Except.ok l => l
  | Except.error _ => title

/-- A matplotlib figure handle: allocation order id and figsize. -/
structure Figure where
  id : Nat
  figsize : List ℚ
deriving DecidableEq, Repr

/-- The axes state three_band_image leaves behind. -/
structure Axes where
  title : String
  xticks : List ℚ
  yticks : List ℚ
  xlabel : String
  ylabel : String
  img : Img
deriving DecidableEq, Repr

/-- Return value and effects of three_band_image: the figure handle, the
axes, and the next free figure id. -/
structure SingleResult where
  fig : Figure
  ax : Axes
  nextFigId : Nat
deriving DecidableEq, Repr

/-- three_band_image: extract the three bands, stack, mask the sentinel,
rescale or equalize, allocate a fresh figure, draw the image with its
title, tick labels and projection-dependent axis labels, and return the
plotting handle pair.  figId threads the matplotlib figure allocation
state; equalize abstracts skimage exposure.equalize_hist. -/
def three_band_image (ds : Dataset) (bands : List String) (time : Nat)
    (figsize : List ℚ) (contrastEnhance : Bool) (title : String)
    (projection : String) (equalize : Img → MaskB → Img) (figId : Nat) :
    Except PyErr SingleResult := do
  let yxs ← three_band_image_raw ds bands time
  let shown := imgToShow equalize contrastEnhance (rawStack yxs.1 yxs.2.1 yxs.2.2)
  Except.ok ⟨⟨figId, figsize⟩,
    ⟨titleUsed ds time title, ds.xVals, ds.yVals,
      (axisLabelsFor projection).1, (axisLabelsFor projection).2, shown⟩,
    figId + 1⟩

/-- timesteps // num_cols: Python floor division; a zero divisor raises
ZeroDivisionError. -/
def floordiv (a b : Nat) : Except PyErr Nat :=
  if b = 0 then Except.error PyErr.zeroDivisionError else Except.ok (a / b)

/-- int(np.ceil(timesteps // num_cols)): the row count of the subplot
grid, the ceiling operator applied to the already floor-divided
integer. -/
def num_rows (timesteps num_cols : Nat) : Except PyErr Nat := do
  let q ← floordiv timesteps num_cols
  Except.ok (Int.toNat ⌈(q : ℚ)⌉)

/-- One subplot panel of three_band_image_subplots. -/
structure SubplotPanel where
  title : String
  xticks : List ℚ
  yticks : List ℚ
  xlabel : String
  ylabel : String
  img : Img
deriving DecidableEq, Repr

/-- One iteration of the for ax in axes.flat loop at panel index k: the
first band shape is unpacked into (t, y, x) with no fallback here (a
ValueError propagates), the bands are indexed at k and stacked, the
sentinel masked, the display transform applied, and the panel titled
with the time label at k. -/
def renderPanelSub (ds : Dataset) (bands : List String)
    (contrastEnhance : Bool) (projection : String)
    (equalize : Img → MaskB → Img) (k : Nat) : Except PyErr SubplotPanel := do
  let b0name ← pyIndex bands 0
  let b0 ← ds.getVar b0name
  match b0.shape with
  | [_t, y, x] => do
      let slices ← channelsOf ds bands (tryChannel3 x y k)
      let shown := imgToShow equalize contrastEnhance (rawStack y x slices)
      let ttl ← dsTimeAt ds k
      Except.ok ⟨ttl, ds.xVals, ds.yVals,
        (axisLabelsFor projection).1, (axisLabelsFor projection).2, shown⟩
  | _ => Except.error PyErr.valueError

/-- The try block of three_band_image_subplots: render panels for the n
remaining grid cells starting at time index k.  An IndexError stops the
loop and is caught by the except clause, which deletes the axes that
failed (deleted count 1); any other exception escapes (third
component). -/
def loopPanels (ds : Dataset) (bands : List String) (contrastEnhance : Bool)
    (projection : String) (equalize : Img → MaskB → Img) :
    Nat → Nat → List SubplotPanel → List SubplotPanel × Nat × Option PyErr
  | 0, _, acc => (acc.reverse, 0, none)
  | Nat.succ n, k, acc =>
      match renderPanelSub ds bands contrastEnhance projection equalize k with
      | Except.ok p => loopPanels ds bands contrastEnhance projection equalize n (k + 1) (p :: acc)
      | Except.error PyErr.indexError => (acc.reverse, 1, none)
      | Except.error e => (acc.reverse, 0, some e)

/-- Effects of a three_band_image_subplots call: the allocated figure,
the subplots_adjust parameters, the grid dimensions, the rendered
panels, the number of axes deleted by the IndexError handler, and the
next free figure id. -/
structure SubplotsEffects where
  fig : Figure
  adjust : List ℚ
  numRows : Nat
  numCols : Nat
  panels : List SubplotPanel
  deletedAxes : Nat
  nextFigId : Nat
deriving DecidableEq, Repr

/-- three_band_image_subplots: compute the grid size from the time-step
count and column count, allocate a fresh figure of num_rows * num_cols
axes, fill each axes with one time step, catch the IndexError fallback,
and fall off the end of the function body (the Python function has no
return statement, so its return value is None, the second component). -/
def three_band_image_subplots (ds : Dataset) (bands : List String)
    (num_cols : Nat) (contrastEnhance : Bool) (figsize : List ℚ)
    (projection : String) (left right bottom top wspace hspace : ℚ)
    (equalize : Img → MaskB → Img) (figId : Nat) :
    Except PyErr (SubplotsEffects × Option Figure) := do
  let timesteps ← dsTimeSize ds
  let nr ← num_rows timesteps num_cols
  let r := loopPanels ds bands contrastEnhance projection equalize (nr * num_cols) 0 []
  match r.2.2 with
  | some e => Except.error e
  | none =>
      Except.ok (⟨⟨figId, figsize⟩, [left, right, bottom, top, wspace, hspace],
        nr, num_cols, r.1, r.2.1, figId + 1⟩, none)

/-- Identity stand-in for the abstract equalize parameter, used to
evaluate the model on concrete inputs. -/
def eqId : Img → MaskB → Img := fun img _ => img

/-- A concrete 2 by 2 slice holding an ordinary value, the sentinel, the
reflectance 5000 and zero. -/
def g1 : Grid := [[100, -999], [5000, 0]]

/-- A concrete three-dimensional band with three time steps. -/
def bandR : BandVar := BandVar.threeD [g1, g1, g1]

/-- A concrete dataset with three time steps and three bands. -/
def ds3 : Dataset :=
  ⟨[("red", bandR), ("green", bandR), ("blue", bandR)],
    some ["t0", "t1", "t2"], [0, 1], [0, 1]⟩

/-- A concrete dataset with no time axis and two-dimensional bands. -/
def ds2d : Dataset :=
  ⟨[("red", BandVar.twoD g1), ("green", BandVar.twoD g1), ("blue", BandVar.twoD g1)],
    none, [0, 1], [0, 1]⟩

/-- The band list used by the concrete examples. -/
def bl : List String := ["red", "green", "blue"]

/-- The default figsize of the module. -/
def fs10 : List ℚ := [10, 10]

/-- get? distributes over map. -/
lemma get?Map {α β : Type} (f : α → β) (l : List α) (n : Nat) :
    (l.map f).get? n = (l.get? n).map f := by
  simp [List.get?_eq_getElem?, List.getElem?_map]

/-- get? on an in-range index of List.range. -/
lemma get?Range (n m : Nat) (h : m < n) : (List.range n).get? m = some m := by
  simp [List.get?_eq_getElem?, List.getElem?_range h]

/-- Reading a pixel of the masked stack inside its bounds yields the
sentinel-masked cast of the corresponding source band value. -/
lemma pxAt_rawStack (y x : Nat) (slices : List Grid) (i r c : Nat)
    (hr : r < y) (hc : c < x) (hi : i < 3) :
    pxAt (rawStack y x slices) r c i =
      maskSentinel (Px.val (qAt ((slices.get? i).getD []) r c)) := by
  unfold pxAt rawStack maskImg mkRawimg
  rw [get?Map, get?Map, get?Range y r hr]
  simp only [Option.map_some', Option.getD_some]
  rw [get?Map, get?Map, get?Range x c hc]
  simp only [Option.map_some', Option.getD_some]
  rw [get?Map, get?Map, get?Range 3 i hi]
  simp only [Option.map_some', Option.getD_some]
  cases h : slices.get? i with
  | none => simp [h, qAt]
  | some g => simp [h]

/-- Pixel reads commute with the elementwise division by 5000 (out of
range reads give the zero fill on both sides, and zero is a fixed point
of the division). -/
lemma pxAt_scaleImg (img : Img) (r c i : Nat) :
    pxAt (scaleImg img) r c i = scalePx (pxAt img r c i) := by
  unfold pxAt scaleImg
  rw [get?Map]
  cases h1 : img.get? r with
  | none => simp [scalePx]
  | some row =>
    simp only [Option.map_some', Option.getD_some]
    rw [get?Map]
    cases h2 : row.get? c with
    | none => simp [scalePx]
    | some cell =>
      simp only [Option.map_some', Option.getD_some]
      rw [get?Map]
      cases h3 : cell.get? i with
      | none => simp [scalePx]
      | some p => simp

/-- The masked stack always has shape (y, x, 3) by construction. -/
lemma isShape_rawStack (y x : Nat) (slices : List Grid) :
    isShape (rawStack y x slices) y x 3 = true := by
  unfold isShape rawStack maskImg mkRawimg
  simp [List.all_eq_true, List.mem_map, List.mem_range]

/-- Claim C1: every pixel equal to the sentinel -999 in source band i becomes
not-a-number in channel i of the stacked RGB array that both
three_band_image and three_band_image_subplots build (rawStack, the
array to which rescaling or enhancement is applied afterwards). -/
theorem C1_sentinel_to_nan (y x : Nat) (slices : List Grid) (g : Grid)
    (i r c : Nat) (hg : slices.get? i = some g) (hi : i < 3)
    (hr : r < y) (hc : c < x) (hq : qAt g r c = -999) :
    pxAt (rawStack y x slices) r c i = Px.nan := by
  rw [pxAt_rawStack y x slices i r c hr hc hi, hg]
  simp [maskSentinel, hq]

/-- Witness for C1 on a concrete slice holding the sentinel. -/
theorem C1_sentinel_to_nan_witness :
    pxAt (rawStack 2 2 [g1, g1, g1]) 0 1 0 = Px.nan :=
  C1_sentinel_to_nan 2 2 [g1, g1, g1] g1 0 0 1 rfl (by decide) (by decide)
    (by decide) (by decide)

/-- Claim C2: with the contrast flag set the displayed image is the histogram
equalization of the stacked array restricted to its finite pixels via
the finite mask; without it the displayed image is the stack divided
elementwise by 5000, and in particular reflectance 5000 displays as
1.0. -/
theorem C2_display_transform (equalize : Img → MaskB → Img) (raw : Img)
    (r c i : Nat) :
    imgToShow equalize true raw = equalize raw (finiteMask raw) ∧
    pxAt (imgToShow equalize false raw) r c i = scalePx (pxAt raw r c i) ∧
    scalePx (Px.val 5000) = Px.val 1 := by
  refine ⟨rfl, pxAt_scaleImg raw r c i, ?_⟩
  simp only [scalePx, Px.val.injEq]
  norm_num

/-- Claim C3: whenever the band extraction of three_band_image succeeds with
spatial dimensions (y, x) taken from the first selected band, the
composite the module builds from it is a fresh y-by-x array of
3-channel pixels. -/
theorem C3_shape (ds : Dataset) (bands : List String) (time y x : Nat)
    (slices : List Grid)
    (_h : three_band_image_raw ds bands time = Except.ok (y, x, slices)) :
    isShape (rawStack y x slices) y x 3 = true :=
  isShape_rawStack y x slices

/-- Witness for C3 on a concrete dataset. -/
theorem C3_shape_witness : isShape (rawStack 2 2 [g1, g1, g1]) 2 2 3 = true :=
  C3_shape ds3 bl 1 2 2 [g1, g1, g1] (by decide)

/-- Claim C4: for any time-step count and column count at least 1, the grid
row count of three_band_image_subplots is the floor division of the
time-step count by the column count, the np.ceil wrapper being the
identity on the already floor-divided integer. -/
theorem C4_num_rows_floor (t c : Nat) (_ht : 1 ≤ t) (hc : 1 ≤ c) :
    num_rows t c = Except.ok (t / c) := by
  have hcz : c ≠ 0 := Nat.one_le_iff_ne_zero.mp hc
  unfold num_rows floordiv
  rw [if_neg hcz]
  show Except.ok (Int.toNat ⌈((t / c : Nat) : ℚ)⌉) = Except.ok (t / c)
  rw [Int.ceil_natCast, Int.toNat_natCast]

/-- Witness for C4 at 5 time steps and 2 columns. -/
theorem C4_num_rows_floor_witness : num_rows 5 2 = Except.ok (5 / 2) :=
  C4_num_rows_floor 5 2 (by decide) (by decide)

/-- Inversion for a successful three_band_image call: the figure is the
freshly allocated one, the counter advances, and the axes carry the
computed title and projection labels. -/
lemma three_band_image_ok (ds : Dataset) (bands : List String) (time : Nat)
    (figsize : List ℚ) (ce : Bool) (ttl proj : String)
    (equalize : Img → MaskB → Img) (figId : Nat) (res : SingleResult)
    (h : three_band_image ds bands time figsize ce ttl proj equalize figId = Except.ok res) :
    res.fig = ⟨figId, figsize⟩ ∧ res.nextFigId = figId + 1 ∧
    res.ax.title = titleUsed ds time ttl ∧
    res.ax.xlabel = (axisLabelsFor proj).1 ∧ res.ax.ylabel = (axisLabelsFor proj).2 := by
  unfold three_band_image at h
  cases hraw : three_band_image_raw ds bands time with
  | error e =>
      rw [hraw] at h
      simp [Bind.bind, Except.bind] at h
  | ok yxs =>
      rw [hraw] at h
      simp only [Bind.bind, Except.bind, Except.ok.injEq] at h
      rw [← h]
      exact ⟨rfl, rfl, rfl, rfl, rfl⟩

/-- Every panel a successful loop iteration produces carries the
projection-dependent axis labels. -/
lemma renderPanelSub_labels (ds : Dataset) (bands : List String) (ce : Bool)
    (proj : String) (equalize : Img → MaskB → Img) (k : Nat) (p : SubplotPanel)
    (h : renderPanelSub ds bands ce proj equalize k = Except.ok p) :
    p.xlabel = (axisLabelsFor proj).1 ∧ p.ylabel = (axisLabelsFor proj).2 := by
  unfold renderPanelSub at h
  cases h0 : pyIndex bands 0 with
  | error e => rw [h0] at h; simp [Bind.bind, Except.bind] at h
  | ok b0name =>
    rw [h0] at h
    simp only [Bind.bind, Except.bind] at h
    cases h1 : ds.getVar b0name with
    | error e => rw [h1] at h; simp [Bind.bind, Except.bind] at h
    | ok b0 =>
      rw [h1] at h
      simp only [Except.bind] at h
      rcases hbs : b0.shape with _ | ⟨t0, _ | ⟨y0, _ | ⟨x0, _ | rest⟩⟩⟩ <;> rw [hbs] at h
      case nil => simp at h
      case cons.nil => simp at h
      case cons.cons.nil => simp at h
      case cons.cons.cons.cons => simp at h
      case cons.cons.cons.nil =>
        dsimp only at h
        cases h2 : channelsOf ds bands (tryChannel3 x0 y0 k) with
        | error e => rw [h2] at h; simp at h
        | ok slices =>
          rw [h2] at h
          dsimp only at h
          cases h3 : dsTimeAt ds k with
          | error e => rw [h3] at h; simp at h
          | ok ttl =>
            rw [h3] at h
            simp only [Except.ok.injEq] at h
            rw [← h]
            exact ⟨rfl, rfl⟩

/-- The panel loop preserves the label property of its accumulator. -/
lemma loopPanels_labels (ds : Dataset) (bands : List String) (ce : Bool)
    (proj : String) (equalize : Img → MaskB → Img) :
    ∀ (n k : Nat) (acc : List SubplotPanel),
      (∀ pn ∈ acc, pn.xlabel = (axisLabelsFor proj).1 ∧ pn.ylabel = (axisLabelsFor proj).2) →
      ∀ pn ∈ (loopPanels ds bands ce proj equalize n k acc).1,
        pn.xlabel = (axisLabelsFor proj).1 ∧ pn.ylabel = (axisLabelsFor proj).2 := by
  intro n
  induction n with
  | zero =>
      intro k acc hacc pn hpn
      simp only [loopPanels, List.mem_reverse] at hpn
      exact hacc pn hpn
  | succ m ih =>
      intro k acc hacc pn hpn
      simp only [loopPanels] at hpn
      cases hr : renderPanelSub ds bands ce proj equalize k with
      | ok p =>
          rw [hr] at hpn
          exact ih (k + 1) (p :: acc)
            (by
              intro q hq
              rcases List.mem_cons.mp hq with hq1 | hq2
              · rw [hq1]; exact renderPanelSub_labels ds bands ce proj equalize k p hr
              · exact hacc q hq2)
            pn hpn
      | error e =>
          rw [hr] at hpn
          cases e <;> simp only [List.mem_reverse] at hpn <;> exact hacc pn hpn

/-- Inversion for a successful three_band_image_subplots call: fresh
figure, advancing counter, None return value, the requested column
count, and projection labels on every panel. -/
lemma subplots_ok (ds : Dataset) (bands : List String) (ncols : Nat) (ce : Bool)
    (figsize : List ℚ) (proj : String) (l r b t w h : ℚ)
    (equalize : Img → MaskB → Img) (figId : Nat)
    (pr : SubplotsEffects × Option Figure)
    (hok : three_band_image_subplots ds bands ncols ce figsize proj l r b t w h equalize figId =
      Except.ok pr) :
    pr.1.fig = ⟨figId, figsize⟩ ∧ pr.1.nextFigId = figId + 1 ∧ pr.2 = none ∧
    pr.1.numCols = ncols ∧
    (∀ pn ∈ pr.1.panels,
      pn.xlabel = (axisLabelsFor proj).1 ∧ pn.ylabel = (axisLabelsFor proj).2) := by
  unfold three_band_image_subplots at hok
  cases hts : dsTimeSize ds with
  | error e => rw [hts] at hok; simp [Bind.bind, Except.bind] at hok
  | ok timesteps =>
    rw [hts] at hok
    simp only [Bind.bind, Except.bind] at hok
    cases hnr : num_rows timesteps ncols with
    | error e => rw [hnr] at hok; simp at hok
    | ok nr =>
      rw [hnr] at hok
      dsimp only at hok
      cases hlp : (loopPanels ds bands ce proj equalize (nr * ncols) 0 []).2.2 with
      | some e => rw [hlp] at hok; simp at hok
      | none =>
        rw [hlp] at hok
        simp only [Except.ok.injEq] at hok
        rw [← hok]
        refine ⟨rfl, rfl, rfl, rfl, ?_⟩
        intro pn hpn
        exact loopPanels_labels ds bands ce proj equalize (nr * ncols) 0 []
          (by intro q hq; cases hq) pn hpn

/-- The channel loop on a three-element band list with all lookups and
conversions succeeding. -/
lemma channelsOf_three (ds : Dataset) (b1 b2 b3 : String)
    (f : BandVar → Except PyErr Grid) (v1 v2 v3 : BandVar) (ga gb gc : Grid)
    (h1 : ds.getVar b1 = Except.ok v1) (hf1 : f v1 = Except.ok ga)
    (h2 : ds.getVar b2 = Except.ok v2) (hf2 : f v2 = Except.ok gb)
    (h3 : ds.getVar b3 = Except.ok v3) (hf3 : f v3 = Except.ok gc) :
    channelsOf ds [b1, b2, b3] f = Except.ok [ga, gb, gc] := by
  unfold channelsOf
  simp [List.enum, List.enumFrom, List.mapM, List.mapM.loop, h1, h2, h3,
    hf1, hf2, hf3, Bind.bind, Except.bind, pure, Except.pure]

/-- One panel renders successfully on a well-formed three-dimensional
dataset whose bands hold the panel index. -/
lemma renderPanelSub_ok (ds : Dataset) (b1 b2 b3 : String) (s1 s2 s3 : List Grid)
    (y x k : Nat) (ce : Bool) (proj : String) (equalize : Img → MaskB → Img)
    (h1 : ds.getVar b1 = Except.ok (BandVar.threeD s1))
    (h2 : ds.getVar b2 = Except.ok (BandVar.threeD s2))
    (h3 : ds.getVar b3 = Except.ok (BandVar.threeD s3))
    (hshape : (BandVar.threeD s1).shape = [s1.length, y, x])
    (ga gb gc : Grid)
    (hk1 : s1.get? k = some ga) (hk2 : s2.get? k = some gb) (hk3 : s3.get? k = some gc)
    (hs1 : gridShapeOk y x ga = true) (hs2 : gridShapeOk y x gb = true)
    (hs3 : gridShapeOk y x gc = true)
    (lk : String) (hlk : dsTimeAt ds k = Except.ok lk) :
    renderPanelSub ds [b1, b2, b3] ce proj equalize k =
      Except.ok ⟨lk, ds.xVals, ds.yVals, (axisLabelsFor proj).1, (axisLabelsFor proj).2,
        imgToShow equalize ce (rawStack y x [ga, gb, gc])⟩ := by
  rw [List.get?_eq_getElem?] at hk1 hk2 hk3
  have hch : channelsOf ds [b1, b2, b3] (tryChannel3 x y k) = Except.ok [ga, gb, gc] := by
    refine channelsOf_three ds b1 b2 b3 (tryChannel3 x y k) _ _ _ ga gb gc h1 ?_ h2 ?_ h3 ?_
    · simp [tryChannel3, List.get?_eq_getElem?, hk1, hs1]
    · simp [tryChannel3, List.get?_eq_getElem?, hk2, hs2]
    · simp [tryChannel3, List.get?_eq_getElem?, hk3, hs3]
  unfold renderPanelSub
  simp only [pyIndex, List.get?, Bind.bind, Except.bind]
  rw [h1]
  dsimp only
  rw [hshape]
  dsimp only
  rw [hch]
  dsimp only
  rw [hlk]

/-- Floor division form of the row count when the column count is
nonzero. -/
lemma num_rows_eq (t c : Nat) (hc : c ≠ 0) : num_rows t c = Except.ok (t / c) := by
  unfold num_rows floordiv
  rw [if_neg hc]
  show Except.ok (Int.toNat ⌈((t / c : Nat) : ℚ)⌉) = Except.ok (t / c)
  rw [Int.ceil_natCast, Int.toNat_natCast]

/-- When every panel in range renders successfully, the loop terminates
normally: no deletion, no escaping exception, one panel per cell. -/
lemma loopPanels_ok (ds : Dataset) (bands : List String) (ce : Bool) (proj : String)
    (equalize : Img → MaskB → Img) :
    ∀ (n k : Nat) (acc : List SubplotPanel),
      (∀ j, k ≤ j → j < k + n → ∃ p, renderPanelSub ds bands ce proj equalize j = Except.ok p) →
      (loopPanels ds bands ce proj equalize n k acc).1.length = acc.length + n ∧
      (loopPanels ds bands ce proj equalize n k acc).2.1 = 0 ∧
      (loopPanels ds bands ce proj equalize n k acc).2.2 = none := by
  intro n
  induction n with
  | zero =>
      intro k acc hrender
      simp [loopPanels]
  | succ m ih =>
      intro k acc hrender
      obtain ⟨p, hp⟩ := hrender k (le_refl k) (by omega)
      have hrec := ih (k + 1) (p :: acc) (fun j hj1 hj2 => hrender j (by omega) (by omega))
      simp only [loopPanels, hp]
      refine ⟨?_, hrec.2⟩
      rw [hrec.1]
      simp only [List.length_cons]
      omega

/-- The three-dimensional branch of the band extraction on a
well-formed dataset: each band is indexed at the time argument. -/
lemma three_band_image_raw_threeD (ds : Dataset) (b1 b2 b3 : String)
    (s1 s2 s3 : List Grid) (time y x : Nat) (ga gb gc : Grid)
    (h1 : ds.getVar b1 = Except.ok (BandVar.threeD s1))
    (h2 : ds.getVar b2 = Except.ok (BandVar.threeD s2))
    (h3 : ds.getVar b3 = Except.ok (BandVar.threeD s3))
    (hshape : (BandVar.threeD s1).shape = [s1.length, y, x])
    (hk1 : s1.get? time = some ga) (hk2 : s2.get? time = some gb)
    (hk3 : s3.get? time = some gc)
    (hs1 : gridShapeOk y x ga = true) (hs2 : gridShapeOk y x gb = true)
    (hs3 : gridShapeOk y x gc = true) :
    three_band_image_raw ds [b1, b2, b3] time = Except.ok (y, x, [ga, gb, gc]) := by
  rw [List.get?_eq_getElem?] at hk1 hk2 hk3
  have hch : channelsOf ds [b1, b2, b3] (tryChannel3 x y time) = Except.ok [ga, gb, gc] := by
    refine channelsOf_three ds b1 b2 b3 (tryChannel3 x y time) _ _ _ ga gb gc h1 ?_ h2 ?_ h3 ?_
    · simp [tryChannel3, List.get?_eq_getElem?, hk1, hs1]
    · simp [tryChannel3, List.get?_eq_getElem?, hk2, hs2]
    · simp [tryChannel3, List.get?_eq_getElem?, hk3, hs3]
  unfold three_band_image_raw
  simp only [pyIndex, List.get?, Bind.bind, Except.bind]
  rw [h1]
  dsimp only
  rw [hshape]
  dsimp only
  rw [hch]

/-- The two-dimensional fallback branch: the ValueError from unpacking a
two-element shape into three names sends the extraction to the fallback,
which takes the sole slice of each band whatever the time argument. -/
lemma three_band_image_raw_twoD (ds : Dataset) (b1 b2 b3 : String)
    (ga gb gc : Grid) (time y x : Nat)
    (h1 : ds.getVar b1 = Except.ok (BandVar.twoD ga))
    (h2 : ds.getVar b2 = Except.ok (BandVar.twoD gb))
    (h3 : ds.getVar b3 = Except.ok (BandVar.twoD gc))
    (hshape : (BandVar.twoD ga).shape = [y, x])
    (hs1 : gridShapeOk y x ga = true) (hs2 : gridShapeOk y x gb = true)
    (hs3 : gridShapeOk y x gc = true) :
    three_band_image_raw ds [b1, b2, b3] time = Except.ok (y, x, [ga, gb, gc]) := by
  have hch : channelsOf ds [b1, b2, b3] (fallbackChannel2 x y) = Except.ok [ga, gb, gc] := by
    refine channelsOf_three ds b1 b2 b3 (fallbackChannel2 x y) _ _ _ ga gb gc h1 ?_ h2 ?_ h3 ?_
    · simp [fallbackChannel2, hs1]
    · simp [fallbackChannel2, hs2]
    · simp [fallbackChannel2, hs3]
  unfold three_band_image_raw
  simp only [pyIndex, List.get?, Bind.bind, Except.bind]
  rw [h1]
  dsimp only
  rw [hshape]
  dsimp only
  rw [hch]

/-- A well-formed multi-time dataset makes the whole subplots call
succeed, with the floor-divided row count and one panel per grid
cell. -/
lemma subplots_run_ok (ds : Dataset) (b1 b2 b3 : String) (s1 s2 s3 : List Grid)
    (ls : List String) (y x ncols : Nat) (ce : Bool) (figsize : List ℚ)
    (proj : String) (l r b t w h : ℚ) (equalize : Img → MaskB → Img) (figId : Nat)
    (hT : ds.timeVals = some ls)
    (h1 : ds.getVar b1 = Except.ok (BandVar.threeD s1))
    (h2 : ds.getVar b2 = Except.ok (BandVar.threeD s2))
    (h3 : ds.getVar b3 = Except.ok (BandVar.threeD s3))
    (hshape : (BandVar.threeD s1).shape = [s1.length, y, x])
    (hl1 : s1.length = ls.length) (hl2 : s2.length = ls.length) (hl3 : s3.length = ls.length)
    (hg1 : ∀ g ∈ s1, gridShapeOk y x g = true)
    (hg2 : ∀ g ∈ s2, gridShapeOk y x g = true)
    (hg3 : ∀ g ∈ s3, gridShapeOk y x g = true)
    (hc : 1 ≤ ncols) :
    three_band_image_subplots ds [b1, b2, b3] ncols ce figsize proj l r b t w h equalize figId =
      Except.ok (⟨⟨figId, figsize⟩, [l, r, b, t, w, h], ls.length / ncols, ncols,
        (loopPanels ds [b1, b2, b3] ce proj equalize (ls.length / ncols * ncols) 0 []).1,
        0, figId + 1⟩, none) ∧
    (loopPanels ds [b1, b2, b3] ce proj equalize (ls.length / ncols * ncols) 0 []).1.length =
      ls.length / ncols * ncols := by
  have hcz : ncols ≠ 0 := Nat.one_le_iff_ne_zero.mp hc
  have hcle : ls.length / ncols * ncols ≤ ls.length := Nat.div_mul_le_self _ _
  have hrender : ∀ j, j < ls.length →
      ∃ p, renderPanelSub ds [b1, b2, b3] ce proj equalize j = Except.ok p := by
    intro j hj
    have hj1 : j < s1.length := by omega
    have hj2 : j < s2.length := by omega
    have hj3 : j < s3.length := by omega
    have hga : s1.get? j = some (s1.get ⟨j, hj1⟩) := List.get?_eq_get hj1
    have hgb : s2.get? j = some (s2.get ⟨j, hj2⟩) := List.get?_eq_get hj2
    have hgc : s3.get? j = some (s3.get ⟨j, hj3⟩) := List.get?_eq_get hj3
    have hdsT : dsTimeAt ds j = Except.ok (ls.get ⟨j, hj⟩) := by
      simp [dsTimeAt, hT, List.getElem?_eq_getElem hj]
    exact ⟨_, renderPanelSub_ok ds b1 b2 b3 s1 s2 s3 y x j ce proj equalize h1 h2 h3 hshape
      _ _ _ hga hgb hgc
      (hg1 _ (List.get_mem s1 j hj1)) (hg2 _ (List.get_mem s2 j hj2))
      (hg3 _ (List.get_mem s3 j hj3))
      _ hdsT⟩
  have hloop := loopPanels_ok ds [b1, b2, b3] ce proj equalize
    (ls.length / ncols * ncols) 0 [] (fun j hj1 hj2 => hrender j (by omega))
  constructor
  · unfold three_band_image_subplots
    rw [show dsTimeSize ds = Except.ok ls.length by simp [dsTimeSize, hT]]
    simp only [Bind.bind, Except.bind]
    rw [num_rows_eq ls.length ncols hcz]
    dsimp only
    rw [hloop.2.2]
    dsimp only
    rw [hloop.2.1]
  · rw [hloop.1]
    simp

/-- Claim C5 (amended): both entry points allocate a fresh figure and
advance the allocation counter; three_band_image returns the plotting
handle pair, while three_band_image_subplots has no return statement and
hands None back to the caller. -/
theorem C5_fresh_figure_return (ds : Dataset) (bands : List String) (time ncols : Nat)
    (figsize : List ℚ) (ce : Bool) (ttl proj : String) (l r b t w h : ℚ)
    (equalize : Img → MaskB → Img) (figId : Nat) :
    (three_band_image ds bands time figsize ce ttl proj equalize figId).toOption.map
        (fun res => (res.fig.id, res.nextFigId)) =
      (three_band_image ds bands time figsize ce ttl proj equalize figId).toOption.map
        (fun _ => (figId, figId + 1)) ∧
    (three_band_image_subplots ds bands ncols ce figsize proj l r b t w h equalize figId).toOption.map
        (fun p => (p.1.fig.id, p.1.nextFigId, p.2)) =
      (three_band_image_subplots ds bands ncols ce figsize proj l r b t w h equalize figId).toOption.map
        (fun _ => (figId, figId + 1, (none : Option Figure))) := by
  constructor
  · cases hX : three_band_image ds bands time figsize ce ttl proj equalize figId with
    | error e => rfl
    | ok res =>
        obtain ⟨hfig, hnext, -, -, -⟩ :=
          three_band_image_ok ds bands time figsize ce ttl proj equalize figId res hX
        simp [Except.toOption, hfig, hnext]
  · cases hX : three_band_image_subplots ds bands ncols ce figsize proj l r b t w h equalize figId with
    | error e => rfl
    | ok pr =>
        obtain ⟨hfig, hnext, hret, -, -⟩ :=
          subplots_ok ds bands ncols ce figsize proj l r b t w h equalize figId pr hX
        simp [Except.toOption, hfig, hnext, hret]

/-- Counterexample to claim C5 as stated: on a concrete successful call,
the value three_band_image_subplots hands back to the caller is None,
not a figure or axes handle. -/
theorem C5_subplots_returns_none :
    (three_band_image_subplots ds3 bl 2 false fs10 ("projected") 0 0 0 0 0 0 eqId 7).toOption.map
      (fun p => p.2) = some none := by decide

/-- Claim C6 (amended): the axis labels are Longitude and Latitude when
the projection argument equals geographic, and Eastings and Northings
for every other value, including projected, in both functions. -/
theorem C6_axis_labels (ds : Dataset) (bands : List String) (time ncols : Nat)
    (figsize : List ℚ) (ce : Bool) (ttl proj : String) (l r b t w h : ℚ)
    (equalize : Img → MaskB → Img) (figId : Nat) :
    (three_band_image ds bands time figsize ce ttl proj equalize figId).toOption.map
        (fun res => (res.ax.xlabel, res.ax.ylabel)) =
      (three_band_image ds bands time figsize ce ttl proj equalize figId).toOption.map
        (fun _ => if proj == "geographic" then ("Longitude", "Latitude")
                  else ("Eastings", "Northings")) ∧
    (three_band_image_subplots ds bands ncols ce figsize proj l r b t w h equalize figId).toOption.map
        (fun p => p.1.panels.all
          (fun pn => pn.xlabel == (if proj == "geographic" then "Longitude" else "Eastings") &&
            pn.ylabel == (if proj == "geographic" then "Latitude" else "Northings"))) =
      (three_band_image_subplots ds bands ncols ce figsize proj l r b t w h equalize figId).toOption.map
        (fun _ => true) := by
  constructor
  · cases hX : three_band_image ds bands time figsize ce ttl proj equalize figId with
    | error e => rfl
    | ok res =>
        obtain ⟨-, -, -, hx, hy⟩ :=
          three_band_image_ok ds bands time figsize ce ttl proj equalize figId res hX
        cases hgeo : proj == "geographic" <;>
          simp [Except.toOption, hx, hy, axisLabelsFor, hgeo]
  · cases hX : three_band_image_subplots ds bands ncols ce figsize proj l r b t w h equalize figId with
    | error e => rfl
    | ok pr =>
        obtain ⟨-, -, -, -, hlab⟩ :=
          subplots_ok ds bands ncols ce figsize proj l r b t w h equalize figId pr hX
        simp only [Except.toOption, Option.map_some', Option.some.injEq, List.all_eq_true]
        intro pn hpn
        obtain ⟨hx, hy⟩ := hlab pn hpn
        cases hgeo : proj == "geographic" <;>
          simp [axisLabelsFor, hgeo] at hx hy <;> simp [hx, hy]

/-- Counterexample to claim C6 as stated: a projection value that is not
projected (here utm) still yields Eastings and Northings, not Longitude
and Latitude. -/
theorem C6_nongeographic_labels :
    (three_band_image ds3 bl 1 fs10 false ("My Plot") ("utm") eqId 0).toOption.map
        (fun res => (res.ax.xlabel, res.ax.ylabel)) = some ("Eastings", "Northings") ∧
    ("utm" : String) ≠ "projected" ∧
    (("Eastings", "Northings") : String × String) ≠ ("Longitude", "Latitude") :=
  ⟨by decide, by decide, by decide⟩

/-- Claim C7 evaluated on the failing input: with 3 time steps and 2
columns the code builds a 1 by 2 grid (floor division), renders only 2
panels, and the IndexError handler never fires, so no subplot is ever
deleted; the except branch of the source expects the grid to outgrow the
time steps, which the floor division makes impossible. -/
theorem C7_floor_grid_eval :
    (three_band_image_subplots ds3 bl 2 false fs10 ("projected") 0 0 0 0 0 0 eqId 0).toOption.map
        (fun p => (p.1.numRows, p.1.numCols, p.1.panels.length, p.1.deletedAxes)) =
      some (1, 2, 2, 0) := by decide

/-- Claim C8: the title of three_band_image is the time label at the
given index whenever that access succeeds, even if the caller passed a
title, and the caller-supplied title is used exactly when the access
raises. -/
theorem C8_title_overrides (ds : Dataset) (bands : List String) (time : Nat)
    (figsize : List ℚ) (ce : Bool) (ttl proj : String)
    (equalize : Img → MaskB → Img) (figId : Nat) :
    ((three_band_image ds bands time figsize ce ttl proj equalize figId).toOption.map
        (fun res => res.ax.title) =
      (three_band_image ds bands time figsize ce ttl proj equalize figId).toOption.map
        (fun _ => titleUsed ds time ttl)) ∧
    (∀ lab, dsTimeAt ds time = Except.ok lab → titleUsed ds time ttl = lab) ∧
    (∀ e, dsTimeAt ds time = Except.error e → titleUsed ds time ttl = ttl) := by
  refine ⟨?_, ?_, ?_⟩
  · cases hX : three_band_image ds bands time figsize ce ttl proj equalize figId with
    | error e => rfl
    | ok res =>
        obtain ⟨-, -, httl, -, -⟩ :=
          three_band_image_ok ds bands time figsize ce ttl proj equalize figId res hX
        simp [Except.toOption, httl]
  · intro lab hl
    unfold titleUsed
    rw [hl]
  · intro e he
    unfold titleUsed
    rw [he]

/-- Witness for C8: with a time axis present the time label wins over an
explicit caller title; with no time axis the caller title is used. -/
theorem C8_title_overrides_witness :
    titleUsed ds3 1 ("Caller Title") = "t1" ∧
    titleUsed ds2d 0 ("Caller Title") = "Caller Title" :=
  ⟨(C8_title_overrides ds3 bl 1 fs10 false ("Caller Title") ("projected") eqId 0).2.1
      "t1" (by decide),
   (C8_title_overrides ds2d bl 0 fs10 false ("Caller Title") ("projected") eqId 0).2.2
      PyErr.attributeError (by decide)⟩

/-- Claim C9: with a three-dimensional first band the three named bands
are extracted at the given time index; when the shape unpacking into
(t, y, x) fails on a two-dimensional dataset, the ValueError is caught
and the sole two-dimensional slice of each band is taken, the time
argument being ignored. -/
theorem C9_time_index_and_fallback :
    (∀ (ds : Dataset) (b1 b2 b3 : String) (s1 s2 s3 : List Grid) (time y x : Nat)
        (ga gb gc : Grid),
      ds.getVar b1 = Except.ok (BandVar.threeD s1) →
      ds.getVar b2 = Except.ok (BandVar.threeD s2) →
      ds.getVar b3 = Except.ok (BandVar.threeD s3) →
      (BandVar.threeD s1).shape = [s1.length, y, x] →
      s1.get? time = some ga → s2.get? time = some gb → s3.get? time = some gc →
      gridShapeOk y x ga = true → gridShapeOk y x gb = true → gridShapeOk y x gc = true →
      three_band_image_raw ds [b1, b2, b3] time = Except.ok (y, x, [ga, gb, gc])) ∧
    (∀ (ds : Dataset) (b1 b2 b3 : String) (ga gb gc : Grid) (time y x : Nat),
      ds.getVar b1 = Except.ok (BandVar.twoD ga) →
      ds.getVar b2 = Except.ok (BandVar.twoD gb) →
      ds.getVar b3 = Except.ok (BandVar.twoD gc) →
      (BandVar.twoD ga).shape = [y, x] →
      gridShapeOk y x ga = true → gridShapeOk y x gb = true → gridShapeOk y x gc = true →
      three_band_image_raw ds [b1, b2, b3] time = Except.ok (y, x, [ga, gb, gc])) :=
  ⟨fun ds b1 b2 b3 s1 s2 s3 time y x ga gb gc h1 h2 h3 hshape hk1 hk2 hk3 hs1 hs2 hs3 =>
      three_band_image_raw_threeD ds b1 b2 b3 s1 s2 s3 time y x ga gb gc
        h1 h2 h3 hshape hk1 hk2 hk3 hs1 hs2 hs3,
   fun ds b1 b2 b3 ga gb gc time y x h1 h2 h3 hshape hs1 hs2 hs3 =>
      three_band_image_raw_twoD ds b1 b2 b3 ga gb gc time y x
        h1 h2 h3 hshape hs1 hs2 hs3⟩

/-- Witness for C9: the concrete three-dimensional dataset is indexed at
time 1; the concrete two-dimensional dataset ignores the out-of-range
time argument 5 and extracts its sole slice. -/
theorem C9_time_index_and_fallback_witness :
    three_band_image_raw ds3 bl 1 = Except.ok (2, 2, [g1, g1, g1]) ∧
    three_band_image_raw ds2d bl 5 = Except.ok (2, 2, [g1, g1, g1]) :=
  ⟨C9_time_index_and_fallback.1 ds3 ("red") ("green") ("blue")
      [g1, g1, g1] [g1, g1, g1] [g1, g1, g1] 1 2 2 g1 g1 g1
      (by decide) (by decide) (by decide) (by decide) (by decide) (by decide)
      (by decide) (by decide) (by decide) (by decide),
   C9_time_index_and_fallback.2 ds2d ("red") ("green") ("blue") g1 g1 g1 5 2 2
      (by decide) (by decide) (by decide) (by decide) (by decide) (by decide) (by decide)⟩

/-- Claim C10: on a well-formed dataset the grid cell count, the product
of the floor-divided row count with the column count, never exceeds the
time-step count, the run succeeds with every panel index in range, the
IndexError deletion branch never fires, and a column count above the
time-step count produces zero rows and no panels at all. -/
theorem C10_grid_never_exceeds (ds : Dataset) (b1 b2 b3 : String)
    (s1 s2 s3 : List Grid) (ls : List String) (y x ncols : Nat) (ce : Bool)
    (figsize : List ℚ) (proj : String) (l r b t w h : ℚ)
    (equalize : Img → MaskB → Img) (figId : Nat)
    (hT : ds.timeVals = some ls)
    (h1 : ds.getVar b1 = Except.ok (BandVar.threeD s1))
    (h2 : ds.getVar b2 = Except.ok (BandVar.threeD s2))
    (h3 : ds.getVar b3 = Except.ok (BandVar.threeD s3))
    (hshape : (BandVar.threeD s1).shape = [s1.length, y, x])
    (hl1 : s1.length = ls.length) (hl2 : s2.length = ls.length)
    (hl3 : s3.length = ls.length)
    (hg1 : ∀ g ∈ s1, gridShapeOk y x g = true)
    (hg2 : ∀ g ∈ s2, gridShapeOk y x g = true)
    (hg3 : ∀ g ∈ s3, gridShapeOk y x g = true)
    (_hts : 1 ≤ ls.length) (hc : 1 ≤ ncols) :
    ∃ eff : SubplotsEffects,
      three_band_image_subplots ds [b1, b2, b3] ncols ce figsize proj l r b t w h equalize figId =
        Except.ok (eff, none) ∧
      eff.numRows * ncols ≤ ls.length ∧
      eff.deletedAxes = 0 ∧
      eff.panels.length = eff.numRows * ncols ∧
      (ls.length < ncols → eff.panels = []) := by
  obtain ⟨hrun, hlen⟩ := subplots_run_ok ds b1 b2 b3 s1 s2 s3 ls y x ncols ce figsize
    proj l r b t w h equalize figId hT h1 h2 h3 hshape hl1 hl2 hl3 hg1 hg2 hg3 hc
  refine ⟨_, hrun, Nat.div_mul_le_self _ _, rfl, hlen, ?_⟩
  intro hlt
  have h0 : ls.length / ncols = 0 := Nat.div_eq_of_lt hlt
  show (loopPanels ds [b1, b2, b3] ce proj equalize (ls.length / ncols * ncols) 0 []).1 = []
  rw [h0]
  simp [loopPanels]

/-- Witness for C10 on the concrete three-step dataset with two
columns. -/
theorem C10_grid_never_exceeds_witness :
    ∃ eff : SubplotsEffects,
      three_band_image_subplots ds3 bl 2 false fs10 ("projected") 0 0 0 0 0 0 eqId 0 =
        Except.ok (eff, none) ∧
      eff.numRows * 2 ≤ 3 ∧
      eff.deletedAxes = 0 ∧
      eff.panels.length = eff.numRows * 2 ∧
      (3 < 2 → eff.panels = []) :=
  C10_grid_never_exceeds ds3 ("red") ("green") ("blue")
    [g1, g1, g1] [g1, g1, g1] [g1, g1, g1] ["t0", "t1", "t2"] 2 2 2 false fs10
    ("projected") 0 0 0 0 0 0 eqId 0
    (by decide) (by decide) (by decide) (by decide) (by decide) (by decide) (by decide)
    (by decide) (by decide) (by decide) (by decide) (by decide) (by decide)

end DEAPlotting
